import Mathlib

/-!
Verification of the Telegram rental-listing bot (bot.py): message
classification, per-user subscription state, trial-expiry gating, and
deduplicated notification fan-out.  Python strings are embedded as lists
of Unicode code points; MongoDB collections as Lean lists; `datetime`
values as seconds since the Unix epoch (UTC, 86400-second days, which is
exact for the `strftime`/`strptime` formats the program uses).
-/

namespace TelegramBot

/-- A Python string, as its list of Unicode code points. -/
abbrev PyStr := List Nat

/-- Embed a Lean string literal as a `PyStr`. -/
def pyStr (s : String) : PyStr := s.data.map Char.toNat

/-- Python `str.lower`, code point by code point: the one-to-one mappings
of the scripts occurring in the program's keyword tables (ASCII Latin,
Cyrillic, Georgian), plus the Latin compatibility letter U+212A (KELVIN
SIGN, which CPython lowers to k); every other code point is left fixed.
Unicode's remaining mappings are also one-to-one on the ranges this
program's texts and keywords exercise; the one-to-MANY expansions of
`str.upper`/`str.lower` (ß → SS, ligatures) are outside a
code-point-to-code-point model, which is why the case-insensitivity
statement below is restricted to the keyword-table scripts. -/
def pyLowerChar (c : Nat) : Nat :=
  if 65 ≤ c ∧ c ≤ 90 then c + 32
  else if c = 0x401 then 0x451
  else if 0x410 ≤ c ∧ c ≤ 0x42F then c + 32
  else if (0x1C90 ≤ c ∧ c ≤ 0x1CBA) ∨ (0x1CBD ≤ c ∧ c ≤ 0x1CBF) then c - 0xBC0
  else if c = 0x212A then 0x6B
  else c

/-- Python `str.upper` on the same ranges (Georgian Mkhedruli letters map
to the Mtavruli block, as Unicode and CPython do), plus the Latin
compatibility letter U+017F (LONG S ſ, which CPython uppercases to S —
the mapping that breaks uniform case-insensitivity of the classifier). -/
def pyUpperChar (c : Nat) : Nat :=
  if 97 ≤ c ∧ c ≤ 122 then c - 32
  else if c = 0x451 then 0x401
  else if 0x430 ≤ c ∧ c ≤ 0x44F then c - 32
  else if (0x10D0 ≤ c ∧ c ≤ 0x10FA) ∨ (0x10FD ≤ c ∧ c ≤ 0x10FF) then c + 0xBC0
  else if c = 0x17F then 0x53
  else c

/-- Python `s.lower()` code-point-wise. -/
def pyLower (s : PyStr) : PyStr := s.map pyLowerChar

/-- Python `s.upper()` code-point-wise. -/
def pyUpper (s : PyStr) : PyStr := s.map pyUpperChar

/-- The code-point blocks of the scripts the keyword table uses: ASCII,
Cyrillic (U+0400-04FF), Georgian (U+10A0-10FF) and Georgian Mtavruli
(U+1C90-1CBF).  Within these blocks CPython's case mappings are exactly
the simple one-to-one maps modelled above (verified against CPython:
no character of these blocks violates lower(upper(c)) = lower(c) or maps
to more than one character). -/
def inKeywordScripts (c : Nat) : Bool :=
  decide (c ≤ 0x7F) || (decide (0x400 ≤ c) && decide (c ≤ 0x4FF)) ||
    (decide (0x10A0 ≤ c) && decide (c ≤ 0x10FF)) ||
    (decide (0x1C90 ≤ c) && decide (c ≤ 0x1CBF))

/-- Python substring test `kw in t` (True when `kw` is empty). -/
def pyIn (kw : PyStr) : PyStr → Bool
  | [] => kw.isEmpty
  | c :: rest => kw.isPrefixOf (c :: rest) || pyIn kw rest

/-- The keyword list hard-coded in `collect_data` (bot.py lines 317-338). -/
def rent_keywords : List String :=
  ["for rent", "rental", "rent", "available for rent", "leasing",
   "rental property", "for lease", "rental unit",
   "ქირავდება", "გასაცემი", "გასაქირავებელი", "დაქირავება", "ქირა",
   "ხელმისაწვდომი",
   "аренда", "сдается", "арендуется", "арендовать", "на аренду", "Сниму"]

/-- The keyword gate of `collect_data`:
`any(keyword in text_lower for keyword in keywords)`. -/
def textMatches (text : PyStr) : Bool :=
  rent_keywords.any (fun kw => pyIn (pyStr kw) (pyLower text))

/-- The static service catalog (bot.py lines 44-69); `service_state` is the
process-wide dictionary mapping each service name to its on/off toggle,
initially all off.  It is a single global shared by every user. -/
def service_state : List (String × Bool) :=
  [("Renters Real Estate", false),
   ("Sellers Real Estate", false),
   ("Landlords Real Estate", false),
   ("Currency and Crypto Exchange", false),
   ("Buyers Real Estate", false),
   ("Residence Permit", false),
   ("Short-Term Renters", false),
   ("Room or Hostel Renters", false),
   ("Owners Real Estate", false),
   ("AI - Renters Real Estate", false),
   ("Renters Cars", false),
   ("Landlords Cars", false),
   ("Transfer", false),
   ("Bike Rentals", false),
   ("Yacht Rentals", false),
   ("Excursions", false),
   ("Massage", false),
   ("Cleaning", false),
   ("Photography", false),
   ("Insurance", false),
   ("Manicure", false)]

/-- The static per-service keyword table (bot.py lines 72-202).  It is
defined in the source but not consulted by `collect_data`, which uses its
own flat keyword list. -/
def service_keywords : List (String × List String) :=
  [("Renters Real Estate",
    ["for rent", "rental", "rent", "available for rent", "leasing",
     "rental property", "for lease", "rental unit"]),
   ("Sellers Real Estate",
    ["for sale", "selling", "buy property", "house for sale",
     "property for sale"]),
   ("Landlords Real Estate",
    ["landlord", "landlord needed", "rent out", "property management"]),
   ("Currency and Crypto Exchange",
    ["currency exchange", "crypto exchange", "buy bitcoin", "sell bitcoin",
     "forex", "crypto trading"]),
   ("Buyers Real Estate",
    ["buy house", "buy property", "property purchase",
     "real estate investment"]),
   ("Residence Permit",
    ["residence permit", "visa", "immigration", "work permit", "residency"]),
   ("Short-Term Renters",
    ["short-term rental", "vacation rental", "holiday home", "airbnb",
     "temporary accommodation"]),
   ("Room or Hostel Renters",
    ["room for rent", "hostel", "shared accommodation", "hostel vacancy",
     "roommate needed"]),
   ("Owners Real Estate",
    ["property owner", "own property", "real estate owner", "own house",
     "property portfolio"]),
   ("AI - Renters Real Estate",
    ["ai rental", "ai real estate", "smart rental", "ai property management"]),
   ("Renters Cars",
    ["car rental", "rent a car", "car lease", "vehicle rental",
     "rental car available"]),
   ("Landlords Cars",
    ["rent out car", "car lease", "car available for rent"]),
   ("Transfer",
    ["airport transfer", "shuttle service", "transport service",
     "pickup and drop", "travel transfer"]),
   ("Bike Rentals",
    ["bike rental", "rent a bike", "bicycle rental", "bike hire"]),
   ("Yacht Rentals",
    ["yacht rental", "rent a yacht", "boat rental", "yacht hire",
     "luxury boat rental"]),
   ("Excursions",
    ["excursion", "guided tour", "day trip", "sightseeing tour",
     "tourist attraction"]),
   ("Massage",
    ["massage service", "spa treatment", "therapeutic massage",
     "relaxation massage"]),
   ("Cleaning",
    ["cleaning service", "house cleaning", "office cleaning", "maid service",
     "deep cleaning"]),
   ("Photography",
    ["photography service", "event photography", "portrait photography",
     "photo shoot", "professional photographer"]),
   ("Insurance",
    ["insurance", "life insurance", "health insurance", "car insurance",
     "property insurance"]),
   ("Manicure",
    ["manicure", "nail salon", "nail treatment", "nail care", "nail art"])]

/-- A stored `trial_end_date` string: either the date-only format
`"%Y-%m-%d"` written by `start` and by the first-service branch of
`button`, or the full `"%Y-%m-%d %H:%M:%S"` format written by the
added-service branch.  `dateOnly d` holds the day number (days since the
epoch); `dateTime s` holds seconds since the epoch. -/
inductive TrialEnd where
  | dateOnly (day : Nat)
  | dateTime (sec : Nat)
deriving DecidableEq, Repr

/-- The value `datetime.strptime` recovers from the stored string, in
seconds since the epoch: a date-only string parses to midnight of that
day (bot.py lines 384-389). -/
def TrialEnd.parse : TrialEnd → Nat
  | .dateOnly d => d * 86400
  | .dateTime s => s

/-- A document of the `users` collection. -/
structure UserRec where
  user_id : Nat
  username : Option PyStr
  first_name : Option PyStr
  last_name : Option PyStr
  status : Bool
  trial_end_date : Option TrialEnd
  services : List String
deriving DecidableEq, Repr

/-- A document of the `collected_data` collection (one per matched
message), as built by `collect_data`. -/
structure EventRec where
  user_link : Option PyStr
  text : PyStr
  message_link : PyStr
  chat_name : PyStr
  message_id : Nat
deriving DecidableEq, Repr

/-- The three MongoDB collections the program uses.  A notification
record is the pair `(user_id, message_id)`. -/
structure DB where
  users : List UserRec
  events : List EventRec
  notifications : List (Nat × Nat)
deriving DecidableEq, Repr

/-- One `send_message` attempt observed during a fanout, with the
outcome of the external send primitive. -/
structure SendAttempt where
  user_id : Nat
  success : Bool
deriving DecidableEq, Repr

/-- `find_one({"user_id": uid})`. -/
def findUser (uid : Nat) (l : List UserRec) : Option UserRec :=
  l.find? (fun u => u.user_id == uid)

/-- `update_one({"user_id": uid}, {"$set": ...})`: rewrite the first
matching document. -/
def updateUser (uid : Nat) (f : UserRec → UserRec) : List UserRec → List UserRec
  | [] => []
  | u :: rest =>
      if u.user_id = uid then f u :: rest else u :: updateUser uid f rest

/-- Python dictionary assignment `d[k] = v` on an association list. -/
def setAssoc (k : String) (v : Bool) : List (String × Bool) → List (String × Bool)
  | [] => [(k, v)]
  | p :: rest => if p.1 = k then (k, v) :: rest else p :: setAssoc k v rest

/-- Python truthiness of an optional string (None and "" are falsy). -/
def truthy : Option PyStr → Bool
  | none => false
  | some s => !s.isEmpty

/-- Decimal rendering of a number, as the f-strings in the source do. -/
def natStr (n : Nat) : PyStr := (Nat.toDigits 10 n).map Char.toNat

/-- Profile fields carried by an incoming private message. -/
structure Profile where
  username : Option PyStr
  first_name : Option PyStr
  last_name : Option PyStr
deriving DecidableEq, Repr

/-- The fresh user document inserted by `start` (bot.py lines 232-242):
status true, `trial_end_date = (utcnow() + 3 days).strftime("%Y-%m-%d")`
(a date-only string, hence the day number of `now + 259200` seconds),
and an empty services list. -/
def freshUser (now uid : Nat) (p : Profile) : UserRec :=
  { user_id := uid
    username := p.username
    first_name := p.first_name
    last_name := p.last_name
    status := true
    trial_end_date := some (TrialEnd.dateOnly ((now + 259200) / 86400))
    services := [] }

/-- The `/start` handler (bot.py lines 216-251): in a private chat,
insert a fresh user document unless one with this `user_id` already
exists; an existing document is left untouched (only a reply is sent). -/
def start (now uid : Nat) (p : Profile) (chatPrivate : Bool) (db : DB) : DB :=
  if chatPrivate then
    match findUser uid db.users with
    | none => { db with users := db.users ++ [freshUser now uid p] }
    | some _ => db
  else db

/-- The whole mutable state of the process: the global `service_state`
dictionary plus the database. -/
structure BotState where
  service_state : List (String × Bool)
  db : DB
deriving DecidableEq, Repr

/-- `generate_service_keyboard` (bot.py lines 205-213): one row per
service, rendered purely from the global `service_state` — the function
takes no user argument, so every user sees the same keyboard.  Each row
is the pair (button text, callback data). -/
def generate_service_keyboard (state : List (String × Bool)) :
    List (PyStr × PyStr) :=
  state.map (fun p =>
    ((if p.2 then pyStr "🟢 " else pyStr "🔴 ") ++ pyStr p.1,
     pyStr p.1 ++ (if p.2 then pyStr "_off" else pyStr "_on")))

/-- End-of-day timestamp:
`utcnow().replace(hour=23, minute=59, second=59)` (bot.py lines 278-282). -/
def endOfDay (now : Nat) : Nat := now / 86400 * 86400 + 86399

/-- The `$set` document of the "on" branch of `button`: the stored
services list with the service name appended (no membership check), and
the recomputed `trial_end_date` — date-only now + 3 days when the
resulting list has length exactly 1, else today 23:59:59. -/
def buttonOnFun (now : Nat) (service_name : String) (user_data : UserRec) :
    UserRec → UserRec :=
  fun r =>
    { r with
        services := user_data.services ++ [service_name]
        trial_end_date := some (if (user_data.services ++ [service_name]).length = 1 then TrialEnd.dateOnly ((now + 259200) / 86400) else TrialEnd.dateTime (endOfDay now)) }

/-- The `$set` document of the "off" branch of `button`: the stored
services list with the first occurrence of the service removed (Python
`list.remove` guarded by a membership test); expiry untouched. -/
def buttonOffFun (service_name : String) (user_data : UserRec) :
    UserRec → UserRec :=
  fun r => { r with services := user_data.services.erase service_name }

/-- The callback-query handler `button` (bot.py lines 261-303), after the
callback data has been split at its last underscore into a service name
and a status suffix.  On "on": the global toggle is set first, then the
service name is appended to the user's stored list (no membership check),
and `trial_end_date` is reset — to the date-only string of now + 3 days
when the resulting list has length exactly 1, otherwise to today at
23:59:59.  On "off": the global toggle is cleared and the first
occurrence of the service is removed, leaving `trial_end_date` alone.
When no user document exists, `user_data.get` raises after the global
toggle was already written, so only `service_state` changes. -/
def button (now uid : Nat) (service_name status : String) (st : BotState) :
    BotState :=
  if status = "on" then
    let st1 := { st with service_state := setAssoc service_name true st.service_state }
    match findUser uid st.db.users with
    | none => st1
    | some user_data =>
        let users1 := updateUser uid (buttonOnFun now service_name user_data) st.db.users
        { st1 with db := { st.db with users := users1 } }
  else if status = "off" then
    let st1 := { st with service_state := setAssoc service_name false st.service_state }
    match findUser uid st.db.users with
    | none => st1
    | some user_data =>
        let users1 := updateUser uid (buttonOffFun service_name user_data) st.db.users
        { st1 with db := { st.db with users := users1 } }
  else st

/-- The expiry test inside `notify_users` (bot.py lines 382-397): a user
document without a `trial_end_date` skips the check entirely; otherwise
the user is expired when `utcnow() >= trial_end_date`. -/
def isExpired (now : Nat) : Option TrialEnd → Bool
  | none => false
  | some te => decide (te.parse ≤ now)

/-- `notifications.find_one({"user_id": uid, "message_id": m})`
existence. -/
def hasNotif (ns : List (Nat × Nat)) (uid m : Nat) : Bool :=
  ns.any (fun r => r.1 == uid && r.2 == m)

/-- One iteration of the `notify_users` loop for the cursor document `u`
(bot.py lines 378-413): flip `status` to false and skip when expired;
skip when a notification record already exists; otherwise attempt the
send and, only when it succeeds, insert the notification record — a
failed send is caught, logged, and leaves no record (`sendOk` is the
outcome of the external send primitive). -/
def notifyStep (now : Nat) (sendOk : Nat → Bool) (m : Nat) (db : DB)
    (u : UserRec) : DB × List SendAttempt :=
  if isExpired now u.trial_end_date then
    ({ db with users := updateUser u.user_id (fun r => { r with status := false }) db.users },
     [])
  else if hasNotif db.notifications u.user_id m then
    (db, [])
  else if sendOk u.user_id then
    ({ db with notifications := db.notifications ++ [(u.user_id, m)] },
     [⟨u.user_id, true⟩])
  else
    (db, [⟨u.user_id, false⟩])

/-- The `notify_users` loop over a list of cursor documents, threading
the database and collecting the send attempts in order. -/
def notifyFold (now : Nat) (sendOk : Nat → Bool) (m : Nat) :
    List UserRec → DB → DB × List SendAttempt
  | [], db => (db, [])
  | u :: rest, db =>
      let r1 := notifyStep now sendOk m db u
      let r2 := notifyFold now sendOk m rest r1.1
      (r2.1, r1.2 ++ r2.2)

/-- `notify_users` (bot.py lines 367-413): iterate over the cursor
`users.find({"status": True})` — the documents with `status` true at
query time — and process each with `notifyStep`. -/
def notify_users (now : Nat) (sendOk : Nat → Bool) (m : Nat) (db : DB) :
    DB × List SendAttempt :=
  notifyFold now sendOk m (db.users.filter (fun u => u.status)) db

/-- The fields of an inbound group message that `collect_data` reads. -/
structure Msg where
  text : Option PyStr
  caption : Option PyStr
  author_username : Option PyStr
  chat_title : Option PyStr
  chat_username : Option PyStr
  message_id : Nat
deriving DecidableEq, Repr

/-- Result of one ingestion: the new database and the send attempts the
fanout made. -/
structure IngestResult where
  db : DB
  attempts : List SendAttempt
deriving DecidableEq, Repr

/-- The effective text of an inbound message: the message text when
truthy, else the caption (bot.py line 311). -/
def collect_text (msg : Msg) : Option PyStr :=
  if truthy msg.text then msg.text else msg.caption

/-- `chat.title if chat.title else chat.username or "Private Chat"`
(bot.py line 310). -/
def collect_chat_name (msg : Msg) : PyStr :=
  if truthy msg.chat_title then msg.chat_title.getD []
  else if truthy msg.chat_username then msg.chat_username.getD []
  else pyStr "Private Chat"

/-- The event document built by `collect_data` (bot.py lines 343-356):
permalink from the chat username when truthy, else synthesized from the
chat display name. -/
def collect_event (msg : Msg) : EventRec :=
  { user_link :=
      if truthy msg.author_username then
        some (pyStr "https://t.me/" ++ msg.author_username.getD [])
      else none
    text := (collect_text msg).getD []
    message_link :=
      if truthy msg.chat_username then
        pyStr "https://t.me/" ++ msg.chat_username.getD [] ++ pyStr "/" ++ natStr msg.message_id
      else
        pyStr "https://t.me/" ++ collect_chat_name msg ++ pyStr "/" ++ natStr msg.message_id
    chat_name := collect_chat_name msg
    message_id := msg.message_id }

/-- `collect_data` (bot.py lines 307-363): drop the message when its
effective text is falsy or no keyword of `rent_keywords` occurs in its
lower-casing; otherwise insert the event document and, on success, run
`notify_users` — an insert failure (`insertOk = false`) is caught and
aborts the fanout. -/
def collect_data (now : Nat) (sendOk : Nat → Bool) (insertOk : Bool)
    (msg : Msg) (db : DB) : IngestResult :=
  if truthy (collect_text msg) then
    if textMatches ((collect_text msg).getD []) then
      if insertOk then
        ⟨(notify_users now sendOk msg.message_id
            ⟨db.users, db.events ++ [collect_event msg], db.notifications⟩).1,
          (notify_users now sendOk msg.message_id
            ⟨db.users, db.events ++ [collect_event msg], db.notifications⟩).2⟩
      else ⟨db, []⟩
    else ⟨db, []⟩
  else ⟨db, []⟩

/-- The inbound message of the end-to-end scenario: text
"Apartment for rent near the park" posted in a channel with username
myhome and message id 42, by an author with username alice. -/
def scenario_msg : Msg :=
  { text := some (pyStr "Apartment for rent near the park")
    caption := none
    author_username := some (pyStr "alice")
    chat_title := some (pyStr "My Home")
    chat_username := some (pyStr "myhome")
    message_id := 42 }

/-- The event document `collect_data` builds for `scenario_msg`. -/
def scenario_event : EventRec :=
  { user_link := some (pyStr "https://t.me/alice")
    text := pyStr "Apartment for rent near the park"
    message_link := pyStr "https://t.me/myhome/42"
    chat_name := pyStr "My Home"
    message_id := 42 }

/-! ## Helper lemmas -/

theorem notify_users_eq (now : Nat) (s : Nat → Bool) (m : Nat) (db : DB) :
    notify_users now s m db =
      notifyFold now s m (db.users.filter (fun u => u.status)) db := rfl

set_option maxHeartbeats 1000000 in
theorem pyCase_roundtrip (c : Nat) (h : inKeywordScripts c = true) :
    pyLowerChar (pyUpperChar c) = pyLowerChar c := by
  have h2 : c ≤ 0x7F ∨ (0x400 ≤ c ∧ c ≤ 0x4FF) ∨
      (0x10A0 ≤ c ∧ c ≤ 0x10FF) ∨ (0x1C90 ≤ c ∧ c ≤ 0x1CBF) := by
    unfold inKeywordScripts at h
    simp only [Bool.or_eq_true, Bool.and_eq_true, decide_eq_true_eq] at h
    tauto
  clear h
  unfold pyLowerChar pyUpperChar
  split_ifs <;> omega

theorem pyLower_pyUpper_of_scripts (s : PyStr)
    (h : s.all inKeywordScripts = true) :
    pyLower (pyUpper s) = pyLower s := by
  unfold pyLower pyUpper
  rw [List.map_map]
  apply List.map_congr_left
  intro c hc
  exact pyCase_roundtrip c (List.all_eq_true.mp h c hc)

theorem hasNotif_iff (ns : List (Nat × Nat)) (uid m : Nat) :
    hasNotif ns uid m = true ↔ (uid, m) ∈ ns := by
  unfold hasNotif
  rw [List.any_eq_true]
  constructor
  · rintro ⟨r, hr, hb⟩
    simp only [Bool.and_eq_true, beq_iff_eq] at hb
    obtain ⟨h1, h2⟩ := hb
    have hr' : r = (uid, m) := by
      cases r
      simp only at h1 h2
      simp [h1, h2]
    rwa [hr'] at hr
  · intro h
    exact ⟨(uid, m), h, by simp⟩

theorem hasNotif_false_iff (ns : List (Nat × Nat)) (uid m : Nat) :
    hasNotif ns uid m = false ↔ (uid, m) ∉ ns := by
  rw [← hasNotif_iff ns uid m]
  simp

theorem notifyStep_users (now : Nat) (s : Nat → Bool) (m : Nat) (db : DB)
    (u : UserRec) :
    (notifyStep now s m db u).1.users =
      if isExpired now u.trial_end_date then
        updateUser u.user_id (fun r => { r with status := false }) db.users
      else db.users := by
  unfold notifyStep
  split_ifs <;> rfl

theorem notifyStep_events (now : Nat) (s : Nat → Bool) (m : Nat) (db : DB)
    (u : UserRec) :
    (notifyStep now s m db u).1.events = db.events := by
  unfold notifyStep
  split_ifs <;> rfl

theorem notifyStep_attempts (now : Nat) (s : Nat → Bool) (m : Nat) (db : DB)
    (u : UserRec) :
    (notifyStep now s m db u).2 =
      if isExpired now u.trial_end_date then []
      else if hasNotif db.notifications u.user_id m then []
      else [⟨u.user_id, s u.user_id⟩] := by
  unfold notifyStep
  split_ifs with h1 h2 h3 <;> first | rfl | simp [h3]

theorem notifyStep_notifs (now : Nat) (s : Nat → Bool) (m : Nat) (db : DB)
    (u : UserRec) :
    (notifyStep now s m db u).1.notifications =
      if isExpired now u.trial_end_date then db.notifications
      else if hasNotif db.notifications u.user_id m then db.notifications
      else if s u.user_id then db.notifications ++ [(u.user_id, m)]
      else db.notifications := by
  unfold notifyStep
  split_ifs <;> rfl

theorem hasNotif_append (ns ms : List (Nat × Nat)) (uid m : Nat) :
    hasNotif (ns ++ ms) uid m = (hasNotif ns uid m || hasNotif ms uid m) := by
  unfold hasNotif
  exact List.any_append

theorem hasNotif_single_ne (w uid m m' : Nat) (h : uid ≠ w) :
    hasNotif [(w, m')] uid m = false := by
  unfold hasNotif
  simp [Ne.symm h]

theorem notifyStep_attempt_mem (now : Nat) (s : Nat → Bool) (m : Nat)
    (db : DB) (u : UserRec) (a : SendAttempt) :
    a ∈ (notifyStep now s m db u).2 ↔
      (a = ⟨u.user_id, s u.user_id⟩ ∧ isExpired now u.trial_end_date = false ∧
        hasNotif db.notifications u.user_id m = false) := by
  rw [notifyStep_attempts]
  split_ifs with h1 h2 <;>
    simp_all

theorem notifyStep_notifs_mono (now : Nat) (s : Nat → Bool) (m : Nat)
    (db : DB) (u : UserRec) (p : Nat × Nat) (hp : p ∈ db.notifications) :
    p ∈ (notifyStep now s m db u).1.notifications := by
  rw [notifyStep_notifs]
  split_ifs <;> simp [hp]

theorem notifyFold_cons (now : Nat) (s : Nat → Bool) (m : Nat) (u : UserRec)
    (rest : List UserRec) (db : DB) :
    notifyFold now s m (u :: rest) db =
      ((notifyFold now s m rest (notifyStep now s m db u).1).1,
        (notifyStep now s m db u).2 ++
          (notifyFold now s m rest (notifyStep now s m db u).1).2) := rfl

theorem notifyFold_events (now : Nat) (s : Nat → Bool) (m : Nat) :
    ∀ (l : List UserRec) (db : DB),
      (notifyFold now s m l db).1.events = db.events := by
  intro l
  induction l with
  | nil => intro db; rfl
  | cons u rest ih =>
      intro db
      rw [notifyFold_cons]
      rw [ih, notifyStep_events]

theorem notifyFold_users_indep (now : Nat) (s s' : Nat → Bool) (m : Nat) :
    ∀ (l : List UserRec) (db db' : DB), db.users = db'.users →
      (notifyFold now s m l db).1.users = (notifyFold now s' m l db').1.users := by
  intro l
  induction l with
  | nil => intro db db' h; exact h
  | cons u rest ih =>
      intro db db' h
      rw [notifyFold_cons, notifyFold_cons]
      apply ih
      rw [notifyStep_users, notifyStep_users, h]

theorem notifyFold_notifs_mono (now : Nat) (s : Nat → Bool) (m : Nat) :
    ∀ (l : List UserRec) (db : DB) (p : Nat × Nat), p ∈ db.notifications →
      p ∈ (notifyFold now s m l db).1.notifications := by
  intro l
  induction l with
  | nil => intro db p hp; exact hp
  | cons u rest ih =>
      intro db p hp
      rw [notifyFold_cons]
      exact ih _ p (notifyStep_notifs_mono now s m db u p hp)

theorem notifyFold_notifs_new (now : Nat) (s : Nat → Bool) (m : Nat) :
    ∀ (l : List UserRec) (db : DB) (p : Nat × Nat),
      p ∈ (notifyFold now s m l db).1.notifications →
      p ∈ db.notifications ∨ (p.2 = m ∧ p.1 ∈ l.map (fun u => u.user_id)) := by
  intro l
  induction l with
  | nil => intro db p hp; exact Or.inl hp
  | cons u rest ih =>
      intro db p hp
      rw [notifyFold_cons] at hp
      rcases ih _ p hp with h | ⟨h2, h3⟩
      · rw [notifyStep_notifs] at h
        split_ifs at h
        · exact Or.inl h
        · exact Or.inl h
        · rcases List.mem_append.mp h with h | h
          · exact Or.inl h
          · simp only [List.mem_singleton] at h
            subst h
            exact Or.inr ⟨rfl, by simp⟩
        · exact Or.inl h
      · exact Or.inr ⟨h2, by simp [h3]⟩

theorem notifyFold_attempt_ids (now : Nat) (s : Nat → Bool) (m : Nat) :
    ∀ (l : List UserRec) (db : DB) (a : SendAttempt),
      a ∈ (notifyFold now s m l db).2 →
      a.user_id ∈ l.map (fun u => u.user_id) := by
  intro l
  induction l with
  | nil => intro db a ha; exact absurd ha (List.not_mem_nil a)
  | cons u rest ih =>
      intro db a ha
      rw [notifyFold_cons] at ha
      rcases List.mem_append.mp ha with h | h
      · rw [notifyStep_attempt_mem] at h
        rw [h.1]
        simp
      · simp only [List.map_cons, List.mem_cons]
        exact Or.inr (ih _ a h)

theorem notifyFold_blocked (now : Nat) (s : Nat → Bool) (m : Nat) :
    ∀ (l : List UserRec) (db : DB) (uid : Nat), (uid, m) ∈ db.notifications →
      ∀ a ∈ (notifyFold now s m l db).2, a.user_id ≠ uid := by
  intro l
  induction l with
  | nil => intro db uid _ a ha; exact absurd ha (List.not_mem_nil a)
  | cons u rest ih =>
      intro db uid hm a ha
      rw [notifyFold_cons] at ha
      rcases List.mem_append.mp ha with h | h
      · rw [notifyStep_attempt_mem] at h
        obtain ⟨ha1, _, ha3⟩ := h
        intro hcontra
        rw [ha1] at hcontra
        simp only at hcontra
        rw [hcontra] at ha3
        rw [hasNotif_false_iff] at ha3
        exact ha3 hm
      · exact ih _ uid (notifyStep_notifs_mono now s m db u _ hm) a h

theorem notifyFold_record_iff (now : Nat) (s : Nat → Bool) (m : Nat) :
    ∀ (l : List UserRec) (db : DB) (uid : Nat),
      ((uid, m) ∈ (notifyFold now s m l db).1.notifications) ↔
        ((uid, m) ∈ db.notifications ∨
          SendAttempt.mk uid true ∈ (notifyFold now s m l db).2) := by
  intro l
  induction l with
  | nil => intro db uid; simp [notifyFold]
  | cons u rest ih =>
      intro db uid
      rw [notifyFold_cons]
      simp only [List.mem_append]
      rw [ih]
      rw [notifyStep_attempts, notifyStep_notifs]
      split_ifs with h1 h2 h3
      · simp
      · simp
      · simp only [List.mem_append, List.mem_singleton, List.mem_cons,
          List.not_mem_nil, or_false, Prod.mk.injEq, SendAttempt.mk.injEq,
          h3, and_true, eq_self_iff_true]
        tauto
      · rw [Bool.not_eq_true] at h3
        simp only [List.mem_singleton, List.mem_cons, List.not_mem_nil,
          or_false, SendAttempt.mk.injEq, h3]
        simp only [show (true = false) = False by simp, and_false, false_or]

theorem notifyFold_succ_le_one (now : Nat) (s : Nat → Bool) (m : Nat) :
    ∀ (l : List UserRec) (db : DB) (uid : Nat),
      ((notifyFold now s m l db).2.countP
        (fun a => a.user_id == uid && a.success)) ≤ 1 := by
  intro l
  induction l with
  | nil => intro db uid; simp [notifyFold]
  | cons u rest ih =>
      intro db uid
      rw [notifyFold_cons]
      simp only [List.countP_append]
      rw [notifyStep_attempts]
      split_ifs with h1 h2
      · simpa using ih _ uid
      · simpa using ih _ uid
      · by_cases hu : u.user_id = uid
        · by_cases hs : s u.user_id = true
          · have hrec : (uid, m) ∈ (notifyStep now s m db u).1.notifications := by
              rw [notifyStep_notifs, if_neg h1, if_neg h2, if_pos hs, hu]
              simp
            have hblock := notifyFold_blocked now s m rest _ uid hrec
            have hzero :
                ((notifyFold now s m rest (notifyStep now s m db u).1).2.countP
                  (fun a => a.user_id == uid && a.success)) = 0 := by
              rw [List.countP_eq_zero]
              intro a ha
              simp only [Bool.and_eq_true, beq_iff_eq, not_and]
              intro haid
              exact absurd haid (hblock a ha)
            rw [hzero]
            simp only [List.countP_cons, List.countP_nil]
            split_ifs <;> omega
          · rw [Bool.not_eq_true] at hs
            have : ((fun a => a.user_id == uid && a.success)
                (⟨u.user_id, s u.user_id⟩ : SendAttempt)) = false := by
              simp [hs]
            simp only [List.countP_cons, List.countP_nil, this]
            simpa using ih _ uid
        · have : ((fun a => a.user_id == uid && a.success)
              (⟨u.user_id, s u.user_id⟩ : SendAttempt)) = false := by
            simp [hu]
          simp only [List.countP_cons, List.countP_nil, this]
          simpa using ih _ uid

theorem notifyFold_char (now : Nat) (s : Nat → Bool) (m : Nat) :
    ∀ (l : List UserRec) (db : DB),
      (l.map (fun u => u.user_id)).Nodup →
      ∀ a : SendAttempt,
        (a ∈ (notifyFold now s m l db).2 ↔
          ∃ u, u ∈ l ∧ a.user_id = u.user_id ∧ a.success = s u.user_id ∧
            isExpired now u.trial_end_date = false ∧
            hasNotif db.notifications u.user_id m = false) := by
  intro l
  induction l with
  | nil => intro db _ a; simp [notifyFold]
  | cons u rest ih =>
      intro db hnd a
      rw [List.map_cons, List.nodup_cons] at hnd
      obtain ⟨hnotin, hndrest⟩ := hnd
      rw [notifyFold_cons]
      rw [List.mem_append, notifyStep_attempt_mem, ih _ hndrest a]
      constructor
      · rintro (⟨rfl, he, hn⟩ | ⟨u', hu', h1, h2, h3, h4⟩)
        · exact ⟨u, List.mem_cons_self u rest, rfl, rfl, he, hn⟩
        · refine ⟨u', List.mem_cons_of_mem u hu', h1, h2, h3, ?_⟩
          rw [notifyStep_notifs] at h4
          split_ifs at h4
          · exact h4
          · exact h4
          · rw [hasNotif_append] at h4
            exact (Bool.or_eq_false_iff.mp h4).1
          · exact h4
      · rintro ⟨u', hu', h1, h2, h3, h4⟩
        rcases List.mem_cons.mp hu' with rfl | hu'
        · left
          refine ⟨?_, h3, h4⟩
          rw [show a = (⟨a.user_id, a.success⟩ : SendAttempt) from rfl, h1, h2]
        · right
          have hne : u'.user_id ≠ u.user_id := by
            intro he
            exact hnotin (he ▸ (List.mem_map.mpr ⟨u', hu', rfl⟩))
          refine ⟨u', hu', h1, h2, h3, ?_⟩
          rw [notifyStep_notifs]
          split_ifs
          · exact h4
          · exact h4
          · rw [hasNotif_append, h4,
              hasNotif_single_ne u.user_id u'.user_id m m hne]
            rfl
          · exact h4

theorem notifyFold_count_le_one (now : Nat) (s : Nat → Bool) (m : Nat) :
    ∀ (l : List UserRec) (db : DB) (uid : Nat),
      (l.map (fun u => u.user_id)).Nodup →
      ((notifyFold now s m l db).2.countP (fun a => a.user_id == uid)) ≤ 1 := by
  intro l
  induction l with
  | nil => intro db uid _; simp [notifyFold]
  | cons u rest ih =>
      intro db uid hnd
      rw [List.map_cons, List.nodup_cons] at hnd
      obtain ⟨hnotin, hndrest⟩ := hnd
      rw [notifyFold_cons]
      simp only [List.countP_append]
      rw [notifyStep_attempts]
      split_ifs with h1 h2
      · simpa using ih _ uid hndrest
      · simpa using ih _ uid hndrest
      · by_cases hu : u.user_id = uid
        · have hzero :
              ((notifyFold now s m rest (notifyStep now s m db u).1).2.countP
                (fun a => a.user_id == uid)) = 0 := by
            rw [List.countP_eq_zero]
            intro a ha
            have hid := notifyFold_attempt_ids now s m rest _ a ha
            simp only [beq_iff_eq]
            intro haid
            rw [haid, ← hu] at hid
            exact hnotin hid
          rw [hzero]
          simp [List.countP_cons, hu]
        · have : ((fun a => a.user_id == uid)
              (⟨u.user_id, s u.user_id⟩ : SendAttempt)) = false := by
            simp [hu]
          simp only [List.countP_cons, List.countP_nil, this]
          simpa using ih _ uid hndrest

theorem findUser_updateUser_ne (uid v : Nat) (f : UserRec → UserRec)
    (hf : ∀ r, (f r).user_id = r.user_id) (h : v ≠ uid) :
    ∀ l, findUser v (updateUser uid f l) = findUser v l := by
  intro l
  induction l with
  | nil => rfl
  | cons u rest ih =>
      unfold updateUser
      by_cases hu : u.user_id = uid
      · rw [if_pos hu]
        unfold findUser
        rw [List.find?_cons, List.find?_cons]
        have h1 : ((f u).user_id == v) = false := by
          rw [hf u, hu]
          simp [Ne.symm h]
        have h2 : (u.user_id == v) = false := by
          rw [hu]
          simp [Ne.symm h]
        rw [h1, h2]
      · rw [if_neg hu]
        unfold findUser
        rw [List.find?_cons, List.find?_cons]
        cases hp : (u.user_id == v)
        · exact ih
        · rfl

theorem findUser_updateUser_eq (uid : Nat) (f : UserRec → UserRec)
    (hf : ∀ r, (f r).user_id = r.user_id) :
    ∀ (l : List UserRec) (u : UserRec), findUser uid l = some u →
      findUser uid (updateUser uid f l) = some (f u) := by
  intro l
  induction l with
  | nil => intro u h; exact absurd h (by simp [findUser])
  | cons w rest ih =>
      intro u h
      unfold findUser at h
      rw [List.find?_cons] at h
      unfold updateUser
      by_cases hw : w.user_id = uid
      · rw [if_pos hw]
        have hbeq : (w.user_id == uid) = true := by simp [hw]
        rw [hbeq] at h
        simp only [Option.some.injEq] at h
        unfold findUser
        rw [List.find?_cons]
        have : ((f w).user_id == uid) = true := by simp [hf w, hw]
        rw [this, h]
      · rw [if_neg hw]
        have hbeq : (w.user_id == uid) = false := by simp [hw]
        rw [hbeq] at h
        unfold findUser
        rw [List.find?_cons, hbeq]
        exact ih u h

theorem button_on_found (now uid : Nat) (svc : String) (st : BotState)
    (u : UserRec) (hfind : findUser uid st.db.users = some u) :
    button now uid svc "on" st =
      ⟨setAssoc svc true st.service_state,
        ⟨updateUser uid (buttonOnFun now svc u) st.db.users,
         st.db.events, st.db.notifications⟩⟩ := by
  unfold button
  rw [if_pos rfl, hfind]

theorem button_off_found (now uid : Nat) (svc : String) (st : BotState)
    (u : UserRec) (hfind : findUser uid st.db.users = some u) :
    button now uid svc "off" st =
      ⟨setAssoc svc false st.service_state,
        ⟨updateUser uid (buttonOffFun svc u) st.db.users,
         st.db.events, st.db.notifications⟩⟩ := by
  unfold button
  rw [if_neg (by decide), if_pos rfl, hfind]

theorem button_findUser_other (now uidA uidB : Nat) (svc status : String)
    (st : BotState) (hne : uidB ≠ uidA) :
    findUser uidB (button now uidA svc status st).db.users =
      findUser uidB st.db.users := by
  unfold button
  split_ifs
  · cases hf : findUser uidA st.db.users with
    | none => rfl
    | some u =>
        exact findUser_updateUser_ne uidA uidB (buttonOnFun now svc u)
          (fun r => rfl) hne st.db.users
  · cases hf : findUser uidA st.db.users with
    | none => rfl
    | some u =>
        exact findUser_updateUser_ne uidA uidB (buttonOffFun svc u)
          (fun r => rfl) hne st.db.users
  · rfl

theorem button_on_findUser_self (now uid : Nat) (svc : String) (st : BotState)
    (u : UserRec) (hfind : findUser uid st.db.users = some u) :
    findUser uid (button now uid svc "on" st).db.users =
      some (buttonOnFun now svc u u) := by
  rw [button_on_found now uid svc st u hfind]
  exact findUser_updateUser_eq uid (buttonOnFun now svc u) (fun r => rfl)
    st.db.users u hfind

theorem length_append_singleton_ne_one {α : Type} (l : List α) (a : α)
    (h : l ≠ []) : (l ++ [a]).length ≠ 1 := by
  rw [List.length_append]
  simp only [List.length_singleton]
  intro hlen
  have h0 : l.length = 0 := by omega
  exact h (List.length_eq_zero.mp h0)

/-! ## Claims -/

/-- C8 counterexample: classification is NOT case-insensitive for every
text.  CPython's `str.upper` maps U+017F (LATIN SMALL LETTER LONG S, ſ)
to S, so "for leaſe" lower-cases to itself and matches no keyword, while
its upper-casing "FOR LEASE" lower-cases to "for lease" and matches the
keyword "for lease" — classify(T) differs from classify(T.upper()). -/
theorem C8_counterexample :
    textMatches (pyStr "for leaſe") = false ∧
    textMatches (pyUpper (pyStr "for leaſe")) = true := by
  exact ⟨by decide, by decide⟩

/-- C8 (amended): classification is deterministic (equal texts classify
equally) and matches a text precisely when its lower-cased form contains
at least one keyword phrase; the case-insensitivity equation
classify(T) = classify(T.upper()) holds for every text whose code points
lie in the scripts of the keyword table (ASCII, Cyrillic U+0400-04FF,
Georgian U+10A0-10FF and Mtavruli U+1C90-1CBF) — but not universally,
as the U+017F counterexample shows. -/
theorem C8_classification (T : PyStr) :
    (∀ T2 : PyStr, T = T2 → textMatches T = textMatches T2) ∧
    (T.all inKeywordScripts = true →
      textMatches (pyUpper T) = textMatches T) ∧
    (textMatches T = true ↔
      ∃ kw, kw ∈ rent_keywords ∧ pyIn (pyStr kw) (pyLower T) = true) := by
  refine ⟨fun T2 h => by rw [h], fun h => ?_, ?_⟩
  · unfold textMatches
    rw [pyLower_pyUpper_of_scripts T h]
  · unfold textMatches
    exact List.any_eq_true

/-- Witness for C8 at the concrete (pure-ASCII) text of the end-to-end
scenario. -/
theorem C8_witness :
    ((pyStr "Apartment for rent near the park").all inKeywordScripts = true) ∧
    textMatches (pyUpper (pyStr "Apartment for rent near the park")) =
      textMatches (pyStr "Apartment for rent near the park") :=
  ⟨by decide,
   (C8_classification (pyStr "Apartment for rent near the park")).2.1
     (by decide)⟩

/-- C3 counterexample: with one user (id 7, no services) enabling the
first service at 2024-01-01T10:00:00Z (epoch second 1704103200), the
stored expiry is the date-only value 2024-01-04 (day 19726), which parses
to midnight 1704326400 — not 2024-01-04T10:00:00Z (epoch 1704362400) as
the claim states. -/
theorem C3_counterexample :
    ((findUser 7 (button 1704103200 7 "Renters Real Estate" "on"
        ⟨service_state,
          ⟨[⟨7, none, none, none, true, none, []⟩], [], []⟩⟩).db.users).map
      (fun u => u.trial_end_date)) = some (some (TrialEnd.dateOnly 19726)) ∧
    (TrialEnd.dateOnly 19726).parse = 1704326400 ∧
    (1704326400 : Nat) ≠ 1704362400 := by
  refine ⟨by decide, rfl, by decide⟩

/-- C3 (amended): enabling a service whose addition makes the stored list
a single element resets `trial_end_date` to the DATE-ONLY string of
now + 3 days, which parses to midnight of that calendar date (so enabling
service A at 2024-01-01T10:00:00Z yields expiry 2024-01-04T00:00:00Z, not
10:00:00); enabling a further service sets expiry to today 23:59:59
exactly as the claim says. -/
theorem C3_amended (now uid : Nat) (svc : String) (st : BotState)
    (u : UserRec) (hfind : findUser uid st.db.users = some u) :
    (u.services = [] →
      findUser uid (button now uid svc "on" st).db.users =
        some { u with
                 services := [svc]
                 trial_end_date := some (TrialEnd.dateOnly ((now + 259200) / 86400)) }) ∧
    (u.services ≠ [] →
      findUser uid (button now uid svc "on" st).db.users =
        some { u with
                 services := u.services ++ [svc]
                 trial_end_date := some (TrialEnd.dateTime (endOfDay now)) }) ∧
    (TrialEnd.dateOnly ((now + 259200) / 86400)).parse =
      (now + 259200) / 86400 * 86400 ∧
    (TrialEnd.dateTime (endOfDay now)).parse = now / 86400 * 86400 + 86399 := by
  rw [button_on_findUser_self now uid svc st u hfind]
  refine ⟨?_, ?_, rfl, rfl⟩
  · intro hemp
    simp [buttonOnFun, hemp]
  · intro hne
    have hlen := length_append_singleton_ne_one u.services svc hne
    simp [buttonOnFun, if_neg hlen, hne]

/-- Witness for C3 at the counterexample instant. -/
theorem C3_witness :
    (findUser 7 (⟨[⟨7, none, none, none, true, none, []⟩], [], []⟩ : DB).users =
      some ⟨7, none, none, none, true, none, []⟩) ∧
    findUser 7 (button 1704103200 7 "Massage" "on"
        ⟨service_state,
          ⟨[⟨7, none, none, none, true, none, []⟩], [], []⟩⟩).db.users =
      some ⟨7, none, none, none, true,
        some (TrialEnd.dateOnly ((1704103200 + 259200) / 86400)), ["Massage"]⟩ :=
  ⟨rfl,
   (C3_amended 1704103200 7 "Massage"
      ⟨service_state, ⟨[⟨7, none, none, none, true, none, []⟩], [], []⟩⟩
      ⟨7, none, none, none, true, none, []⟩ rfl).1 rfl⟩

/-- C10: enabling a service the user already stores appends a second copy
(the enable path is append-only, not a set insert), and because the
resulting length exceeds 1, the expiry becomes today 23:59:59 rather than
now + 3 days. -/
theorem C10_duplicate_append (now uid : Nat) (svc : String) (st : BotState)
    (u : UserRec) (hfind : findUser uid st.db.users = some u)
    (hmem : svc ∈ u.services) :
    findUser uid (button now uid svc "on" st).db.users =
      some { u with
               services := u.services ++ [svc]
               trial_end_date := some (TrialEnd.dateTime (endOfDay now)) } ∧
    (u.services ++ [svc]).count svc = u.services.count svc + 1 ∧
    2 ≤ (u.services ++ [svc]).count svc := by
  have hne : u.services ≠ [] := by
    intro h
    rw [h] at hmem
    exact absurd hmem (List.not_mem_nil svc)
  refine ⟨?_, ?_, ?_⟩
  · rw [button_on_findUser_self now uid svc st u hfind]
    have hlen := length_append_singleton_ne_one u.services svc hne
    simp [buttonOnFun, if_neg hlen, hne]
  · rw [List.count_append]
    simp
  · rw [List.count_append]
    have h1 : 0 < u.services.count svc := List.count_pos_iff.mpr hmem
    have h2 : (([svc] : List String).count svc) = 1 := by simp
    rw [h2]
    omega

/-- Witness for C10: user 7 already stores "Massage" and presses its
enable button again at 2024-01-01T10:00:00Z. -/
theorem C10_witness :
    (findUser 7 (⟨[⟨7, none, none, none, true, none, ["Massage"]⟩], [], []⟩ : DB).users =
      some ⟨7, none, none, none, true, none, ["Massage"]⟩) ∧
    ("Massage" ∈ (["Massage"] : List String)) ∧
    (findUser 7 (button 1704103200 7 "Massage" "on"
        ⟨service_state,
          ⟨[⟨7, none, none, none, true, none, ["Massage"]⟩], [], []⟩⟩).db.users =
      some ⟨7, none, none, none, true,
        some (TrialEnd.dateTime (endOfDay 1704103200)), ["Massage", "Massage"]⟩ ∧
      (["Massage", "Massage"] : List String).count "Massage" =
        (["Massage"] : List String).count "Massage" + 1 ∧
      2 ≤ (["Massage", "Massage"] : List String).count "Massage") :=
  ⟨rfl, by decide,
   C10_duplicate_append 1704103200 7 "Massage"
     ⟨service_state, ⟨[⟨7, none, none, none, true, none, ["Massage"]⟩], [], []⟩⟩
     ⟨7, none, none, none, true, none, ["Massage"]⟩ rfl (by decide)⟩

/-- C9 counterexample: the service keyboard is rendered from the single
process-wide `service_state`, so after user 7 enables "Massage" the
keyboard shown to user 8 (and to everyone) changes. -/
theorem C9_counterexample :
    generate_service_keyboard
        ((button 0 7 "Massage" "on"
          ⟨service_state,
            ⟨[⟨7, none, none, none, true, none, []⟩,
              ⟨8, none, none, none, true, none, []⟩], [], []⟩⟩).service_state) ≠
      generate_service_keyboard service_state := by decide

/-- C9 (amended): the per-user stored service lists do not interfere — a
button press by one user leaves every other user's stored document
unchanged — but the on/off toggle is a process-wide global: the resulting
`service_state` does not depend on which user pressed the button, and the
keyboard every user sees is rendered from it. -/
theorem C9_amended (now uidA uidB : Nat) (svc status : String) (st : BotState)
    (hne : uidB ≠ uidA) :
    (findUser uidB (button now uidA svc status st).db.users =
      findUser uidB st.db.users) ∧
    (∀ uidC : Nat, (button now uidC svc "on" st).service_state =
      setAssoc svc true st.service_state) := by
  refine ⟨button_findUser_other now uidA uidB svc status st hne, ?_⟩
  intro uidC
  unfold button
  rw [if_pos rfl]
  cases h : findUser uidC st.db.users <;> rfl

/-- Witness for C9 with users 7 and 8. -/
theorem C9_witness :
    findUser 8 (button 0 7 "Massage" "on"
        ⟨service_state,
          ⟨[⟨7, none, none, none, true, none, []⟩,
            ⟨8, none, none, none, true, none, []⟩], [], []⟩⟩).db.users =
      findUser 8 (⟨[⟨7, none, none, none, true, none, []⟩,
            ⟨8, none, none, none, true, none, []⟩], [], []⟩ : DB).users :=
  (C9_amended 0 7 8 "Massage" "on"
    ⟨service_state,
      ⟨[⟨7, none, none, none, true, none, []⟩,
        ⟨8, none, none, none, true, none, []⟩], [], []⟩⟩ (by decide)).1

/-- C7: user creation is idempotent — the first `/start` in a private
chat inserts a fresh user with status true, a 3-day trial (stored
date-only) and an empty service set; any later `/start` for the same id
leaves the database completely unchanged, so profile fields are never
resynced. -/
theorem C7_getOrCreate_idempotent (now uid : Nat) (p : Profile) (db : DB) :
    (findUser uid db.users = none →
      start now uid p true db = { db with users := db.users ++ [freshUser now uid p] } ∧
      (freshUser now uid p).services = [] ∧
      (freshUser now uid p).status = true ∧
      (freshUser now uid p).trial_end_date =
        some (TrialEnd.dateOnly ((now + 259200) / 86400))) ∧
    (∀ u, findUser uid db.users = some u →
      ∀ (now2 : Nat) (p2 : Profile), start now2 uid p2 true db = db) := by
  constructor
  · intro hnone
    refine ⟨?_, rfl, rfl, rfl⟩
    unfold start
    rw [if_pos rfl, hnone]
  · intro u hsome now2 p2
    unfold start
    rw [if_pos rfl, hsome]

/-- Witness for C7: creating user 3 in an empty store and starting again
with a different profile leaves the store unchanged. -/
theorem C7_witness :
    (findUser 3 (⟨[], [], []⟩ : DB).users = none) ∧
    start 1704070000 3 ⟨some (pyStr "robert"), none, none⟩ true
        (start 1704067200 3 ⟨some (pyStr "bob"), none, none⟩ true ⟨[], [], []⟩) =
      start 1704067200 3 ⟨some (pyStr "bob"), none, none⟩ true ⟨[], [], []⟩ :=
  ⟨rfl,
   (C7_getOrCreate_idempotent 1704070000 3 ⟨some (pyStr "robert"), none, none⟩
      (start 1704067200 3 ⟨some (pyStr "bob"), none, none⟩ true ⟨[], [], []⟩)).2
     (freshUser 1704067200 3 ⟨some (pyStr "bob"), none, none⟩) (by decide)
     1704070000 ⟨some (pyStr "robert"), none, none⟩⟩

/-- C5 counterexample: user 9 has status true and NO `trial_end_date`;
the expiry check is skipped entirely and the user IS notified (here at an
arbitrarily late time), refuting "absent expiry timestamp means inactive,
never eligible, never notified". -/
theorem C5_counterexample :
    (notify_users 99999999999 (fun _ => true) 42
        ⟨[⟨9, none, none, none, true, none, []⟩], [], []⟩).2 =
      [⟨9, true⟩] ∧
    (⟨9, none, none, none, true, none, []⟩ : UserRec).trial_end_date = none := by
  exact ⟨by decide, rfl⟩

/-- C5 (amended): a user document without a `trial_end_date` bypasses the
expiry check entirely: whenever its status flag is true and no prior
notification record exists, the fanout attempts a send to that user at
every time whatsoever (absent expiry means never-expiring, not
inactive). -/
theorem C5_amended (now m : Nat) (sendOk : Nat → Bool) (db : DB)
    (u : UserRec) (hmem : u ∈ db.users) (hstatus : u.status = true)
    (hte : u.trial_end_date = none)
    (hnd : (db.users.map (fun v => v.user_id)).Nodup)
    (hnotif : hasNotif db.notifications u.user_id m = false) :
    SendAttempt.mk u.user_id (sendOk u.user_id) ∈
      (notify_users now sendOk m db).2 := by
  have hndf : ((db.users.filter (fun v => v.status)).map
      (fun v => v.user_id)).Nodup :=
    List.Nodup.sublist (List.Sublist.map _ (List.filter_sublist _)) hnd
  rw [notify_users_eq,
    notifyFold_char now sendOk m _ db hndf ⟨u.user_id, sendOk u.user_id⟩]
  refine ⟨u, ?_, rfl, rfl, ?_, hnotif⟩
  · rw [List.mem_filter]
    exact ⟨hmem, hstatus⟩
  · rw [hte]
    rfl

/-- Witness for C5: user 9 with status true and absent expiry in a store
with a single user is attempted at time 99999999999. -/
theorem C5_witness :
    SendAttempt.mk (9 : Nat) ((fun _ => true) (9 : Nat)) ∈
      (notify_users 99999999999 (fun _ => true) 42
        ⟨[⟨9, none, none, none, true, none, []⟩], [], []⟩).2 :=
  C5_amended 99999999999 42 (fun _ => true)
    ⟨[⟨9, none, none, none, true, none, []⟩], [], []⟩
    ⟨9, none, none, none, true, none, []⟩
    (by decide) rfl rfl (by decide) (by decide)

/-- C4 counterexample: a user created at T0 = 2024-01-01T10:00:00Z
(epoch 1704103200) stores the date-only trial end 2024-01-04 (day 19726,
i.e. midnight); at T0 + 2d23h = 2024-01-04T09:00:00Z the eligibility
check already fails — the fanout sends nothing and flips the status flag
— refuting "the eligibility check returns true at T0+2d23h". -/
theorem C4_counterexample :
    (notify_users (1704103200 + 255600) (fun _ => true) 42
        (start 1704103200 9 ⟨none, none, none⟩ true ⟨[], [], []⟩)).2 = [] ∧
    (notify_users (1704103200 + 255600) (fun _ => true) 42
        (start 1704103200 9 ⟨none, none, none⟩ true ⟨[], [], []⟩)).1.users =
      [⟨9, none, none, none, false, some (TrialEnd.dateOnly 19726), []⟩] := by
  exact ⟨by decide, by decide⟩

/-- C4 (amended): the stored trial end is the date-only string of
T0 + 3 days, parsing to midnight of that calendar date.  Hence the check
is always false at T0+3d+1s; it is true at T0+2d23h exactly when T0 falls
in the first hour of its UTC day (and false otherwise, refining the
claim); and the expiry transition is sticky: the first failing check
flips status to false and no later fanout ever attempts that user
again. -/
theorem C4_amended (T0 uid : Nat) (p : Profile) :
    ((start T0 uid p true ⟨[], [], []⟩).users = [freshUser T0 uid p]) ∧
    (isExpired (T0 + 259201) (freshUser T0 uid p).trial_end_date = true) ∧
    (T0 % 86400 < 3600 →
      isExpired (T0 + 255600) (freshUser T0 uid p).trial_end_date = false) ∧
    (3600 ≤ T0 % 86400 →
      isExpired (T0 + 255600) (freshUser T0 uid p).trial_end_date = true) ∧
    (∀ (u : UserRec) (evs : List EventRec) (ns : List (Nat × Nat))
        (t m : Nat) (sendOk : Nat → Bool),
      u.status = true → isExpired t u.trial_end_date = true →
      ((notify_users t sendOk m ⟨[u], evs, ns⟩).1.users =
          [{ u with status := false }] ∧
        (notify_users t sendOk m ⟨[u], evs, ns⟩).2 = [] ∧
        (∀ (t2 m2 : Nat) (s2 : Nat → Bool),
          (notify_users t2 s2 m2 (notify_users t sendOk m ⟨[u], evs, ns⟩).1).2 =
            []))) := by
  refine ⟨rfl, ?_, ?_, ?_, ?_⟩
  · simp [freshUser, isExpired, TrialEnd.parse]
    omega
  · intro hr
    simp [freshUser, isExpired, TrialEnd.parse]
    omega
  · intro hr
    simp [freshUser, isExpired, TrialEnd.parse]
    omega
  · intro u evs ns t m sendOk hstatus hexp
    have hrun : notify_users t sendOk m ⟨[u], evs, ns⟩ =
        (⟨[{ u with status := false }], evs, ns⟩, []) := by
      rw [notify_users_eq]
      show notifyFold t sendOk m (List.filter (fun v => v.status) [u])
          ⟨[u], evs, ns⟩ = (⟨[{ u with status := false }], evs, ns⟩, [])
      rw [List.filter_cons]
      rw [if_pos hstatus, List.filter_nil]
      rw [notifyFold_cons]
      unfold notifyStep
      rw [if_pos hexp]
      simp [updateUser, notifyFold]
    rw [hrun]
    refine ⟨rfl, rfl, ?_⟩
    intro t2 m2 s2
    rw [notify_users_eq]
    show (notifyFold t2 s2 m2
        (List.filter (fun v => v.status) [{ u with status := false }])
        ⟨[{ u with status := false }], evs, ns⟩).2 = []
    rw [List.filter_cons]
    rw [if_neg (by simp), List.filter_nil]
    rfl

/-- Witness for C4: a user created at midnight 2024-01-01T00:00:00Z is
still eligible at T0+2d23h, ineligible at T0+3d+1s, and once a fanout
sees user 9 expired it flips the flag and later fanouts attempt
nothing. -/
theorem C4_witness :
    (isExpired (1704067200 + 259201)
      (freshUser 1704067200 9 ⟨none, none, none⟩).trial_end_date = true) ∧
    (isExpired (1704067200 + 255600)
      (freshUser 1704067200 9 ⟨none, none, none⟩).trial_end_date = false) ∧
    (notify_users 1704326400 (fun _ => true) 42
        ⟨[⟨9, none, none, none, true, some (TrialEnd.dateOnly 19723), []⟩],
          [], []⟩).2 = [] ∧
    (notify_users 1704499200 (fun _ => false) 43
        (notify_users 1704326400 (fun _ => true) 42
          ⟨[⟨9, none, none, none, true, some (TrialEnd.dateOnly 19723), []⟩],
            [], []⟩).1).2 = [] :=
  ⟨(C4_amended 1704067200 9 ⟨none, none, none⟩).2.1,
   (C4_amended 1704067200 9 ⟨none, none, none⟩).2.2.1 (by decide),
   ((C4_amended 1704067200 9 ⟨none, none, none⟩).2.2.2.2
      ⟨9, none, none, none, true, some (TrialEnd.dateOnly 19723), []⟩
      [] [] 1704326400 42 (fun _ => true) rfl (by decide)).2.1,
   ((C4_amended 1704067200 9 ⟨none, none, none⟩).2.2.2.2
      ⟨9, none, none, none, true, some (TrialEnd.dateOnly 19723), []⟩
      [] [] 1704326400 42 (fun _ => true) rfl (by decide)).2.2
     1704499200 43 (fun _ => false)⟩

/-- C1 counterexample: with user 5 active and the external send failing,
`notify_users` attempts the send but writes NO notification record (the
record is inserted only after a successful send), and reprocessing the
same event attempts the same user again — refuting both "a record exists
iff a send was attempted" and "at most one outbound attempt per user per
event under repeated processing". -/
theorem C1_counterexample :
    (notify_users 0 (fun _ => false) 42
        ⟨[⟨5, none, none, none, true, none, []⟩], [], []⟩).2 =
      [⟨5, false⟩] ∧
    (notify_users 0 (fun _ => false) 42
        ⟨[⟨5, none, none, none, true, none, []⟩], [], []⟩).1.notifications =
      [] ∧
    (notify_users 0 (fun _ => false) 42
        (notify_users 0 (fun _ => false) 42
          ⟨[⟨5, none, none, none, true, none, []⟩], [], []⟩).1).2 =
      [⟨5, false⟩] := by
  exact ⟨by decide, by decide, by decide⟩

/-- C1 (amended): a NotificationRecord is written only AFTER a successful
send, so for a fixed event a record exists iff a successful send to that
user happened (or the record predates the fanout); a failed send leaves
no record and may be re-attempted on reprocessing, but at most one
SUCCESSFUL send per (user, event) ever occurs across repeated sequential
processing of the same event. -/
theorem C1_amended (now1 now2 m : Nat) (s1 s2 : Nat → Bool) (db : DB)
    (uid : Nat) :
    ((uid, m) ∈ (notify_users now1 s1 m db).1.notifications ↔
      ((uid, m) ∈ db.notifications ∨
        SendAttempt.mk uid true ∈ (notify_users now1 s1 m db).2)) ∧
    (((notify_users now1 s1 m db).2 ++
        (notify_users now2 s2 m (notify_users now1 s1 m db).1).2).countP
      (fun a => a.user_id == uid && a.success)) ≤ 1 := by
  constructor
  · exact notifyFold_record_iff now1 s1 m _ db uid
  · rw [List.countP_append]
    have hle1 : ((notify_users now1 s1 m db).2.countP
        (fun a => a.user_id == uid && a.success)) ≤ 1 :=
      notifyFold_succ_le_one now1 s1 m _ db uid
    by_cases hpos : 0 < ((notify_users now1 s1 m db).2.countP
        (fun a => a.user_id == uid && a.success))
    · obtain ⟨a, ha, hpa⟩ := List.countP_pos_iff.mp hpos
      have ha2 : a = SendAttempt.mk uid true := by
        simp only [Bool.and_eq_true, beq_iff_eq] at hpa
        rw [show a = (⟨a.user_id, a.success⟩ : SendAttempt) from rfl,
          hpa.1, hpa.2]
      have hrec : (uid, m) ∈ (notify_users now1 s1 m db).1.notifications :=
        (notifyFold_record_iff now1 s1 m _ db uid).mpr (Or.inr (ha2 ▸ ha))
      have hblock := notifyFold_blocked now2 s2 m
        ((notify_users now1 s1 m db).1.users.filter (fun v => v.status))
        (notify_users now1 s1 m db).1 uid hrec
      have hzero : ((notify_users now2 s2 m
          (notify_users now1 s1 m db).1).2.countP
          (fun a => a.user_id == uid && a.success)) = 0 := by
        rw [List.countP_eq_zero]
        intro a2 ha2mem
        simp only [Bool.and_eq_true, beq_iff_eq, not_and]
        intro haid
        exact absurd haid (hblock a2 ha2mem)
      omega
    · have h0 : ((notify_users now1 s1 m db).2.countP
          (fun a => a.user_id == uid && a.success)) = 0 := by omega
      have hle2 : ((notify_users now2 s2 m
          (notify_users now1 s1 m db).1).2.countP
          (fun a => a.user_id == uid && a.success)) ≤ 1 :=
        notifyFold_succ_le_one now2 s2 m _ (notify_users now1 s1 m db).1 uid
      omega

/-- C6: a dispatch failure for one recipient never changes any other
recipient's outcome (attempt membership, final user documents, and the
notification records of every other user are identical under send
oracles that agree away from one user), while an event-persistence
failure aborts that event's fanout entirely: no notification is
attempted and the database is untouched. -/
theorem C6_error_isolation (now m : Nat) (s s2 : Nat → Bool) (v : Nat)
    (db : DB) (hnd : (db.users.map (fun u => u.user_id)).Nodup)
    (hag : ∀ w, w ≠ v → s w = s2 w) :
    (∀ a : SendAttempt, a.user_id ≠ v →
      (a ∈ (notify_users now s m db).2 ↔ a ∈ (notify_users now s2 m db).2)) ∧
    ((notify_users now s m db).1.users = (notify_users now s2 m db).1.users) ∧
    (∀ pr : Nat × Nat, pr.1 ≠ v →
      (pr ∈ (notify_users now s m db).1.notifications ↔
        pr ∈ (notify_users now s2 m db).1.notifications)) ∧
    (∀ (msg : Msg) (db0 : DB) (s0 : Nat → Bool) (now0 : Nat),
      collect_data now0 s0 false msg db0 = ⟨db0, []⟩) := by
  have hndf : ((db.users.filter (fun v => v.status)).map
      (fun v => v.user_id)).Nodup :=
    List.Nodup.sublist (List.Sublist.map _ (List.filter_sublist _)) hnd
  have hmem : ∀ a : SendAttempt, a.user_id ≠ v →
      (a ∈ (notify_users now s m db).2 ↔ a ∈ (notify_users now s2 m db).2) := by
    intro a hav
    rw [notify_users_eq, notify_users_eq,
      notifyFold_char now s m _ db hndf a,
      notifyFold_char now s2 m _ db hndf a]
    constructor
    · rintro ⟨u, hu, h1, h2, h3, h4⟩
      refine ⟨u, hu, h1, ?_, h3, h4⟩
      rw [h2]
      exact hag u.user_id (by rw [← h1]; exact hav)
    · rintro ⟨u, hu, h1, h2, h3, h4⟩
      refine ⟨u, hu, h1, ?_, h3, h4⟩
      rw [h2]
      exact (hag u.user_id (by rw [← h1]; exact hav)).symm
  refine ⟨hmem, ?_, ?_, ?_⟩
  · rw [notify_users_eq, notify_users_eq]
    exact notifyFold_users_indep now s s2 m _ db db rfl
  · intro pr hpr
    by_cases hpm : pr.2 = m
    · have hpr2 : pr = (pr.1, m) := by
        rw [← hpm]
      rw [hpr2]
      rw [notify_users_eq, notify_users_eq,
        notifyFold_record_iff now s m _ db pr.1,
        notifyFold_record_iff now s2 m _ db pr.1]
      have hiff := hmem ⟨pr.1, true⟩ hpr
      rw [notify_users_eq, notify_users_eq] at hiff
      rw [hiff]
    · have hside : ∀ sx : Nat → Bool,
          (pr ∈ (notify_users now sx m db).1.notifications ↔
            pr ∈ db.notifications) := by
        intro sx
        rw [notify_users_eq]
        constructor
        · intro h
          rcases notifyFold_notifs_new now sx m _ db pr h with h | ⟨h2, _⟩
          · exact h
          · exact absurd h2 hpm
        · intro h
          exact notifyFold_notifs_mono now sx m _ db pr h
      rw [hside s, hside s2]
  · intro msg db0 s0 now0
    unfold collect_data
    split_ifs with h1 h2 h3
    · exact absurd h3 (by decide)
    · rfl
    · rfl
    · rfl

/-- Witness for C6: two oracles differing only at user 5 give the same
outcome for user 6, and a failed event insert yields no attempts. -/
theorem C6_witness :
    ((⟨6, true⟩ : SendAttempt) ∈
        (notify_users 0 (fun _ => true) 42
          ⟨[⟨5, none, none, none, true, none, []⟩,
            ⟨6, none, none, none, true, none, []⟩], [], []⟩).2 ↔
      (⟨6, true⟩ : SendAttempt) ∈
        (notify_users 0 (fun w => w != 5) 42
          ⟨[⟨5, none, none, none, true, none, []⟩,
            ⟨6, none, none, none, true, none, []⟩], [], []⟩).2) ∧
    collect_data 0 (fun _ => true) false scenario_msg
        ⟨[⟨5, none, none, none, true, none, []⟩], [], []⟩ =
      ⟨⟨[⟨5, none, none, none, true, none, []⟩], [], []⟩, []⟩ :=
  ⟨(C6_error_isolation 0 42 (fun _ => true) (fun w => w != 5) 5
      ⟨[⟨5, none, none, none, true, none, []⟩,
        ⟨6, none, none, none, true, none, []⟩], [], []⟩
      (by decide) (fun w hw => by simp [hw])).1 ⟨6, true⟩ (by decide),
   (C6_error_isolation 0 42 (fun _ => true) (fun w => w != 5) 5
      ⟨[⟨5, none, none, none, true, none, []⟩,
        ⟨6, none, none, none, true, none, []⟩], [], []⟩
      (by decide) (fun w hw => by simp [hw])).2.2.2 scenario_msg
     ⟨[⟨5, none, none, none, true, none, []⟩], [], []⟩ (fun _ => true) 0⟩

/-- C2 counterexample: the fanout does NO service filtering — user 5 has
an empty subscribed-service set (its intersection with any matched-tag
set is empty), yet processing the scenario message notifies user 5 —
refuting "notifies ... whose subscribed services intersect the event's
matched services ... and no one else". -/
theorem C2_counterexample :
    (collect_data 0 (fun _ => true) true scenario_msg
        ⟨[⟨5, none, none, none, true, none, []⟩], [], []⟩).attempts =
      [⟨5, true⟩] ∧
    (⟨5, none, none, none, true, none, []⟩ : UserRec).services = [] := by
  exact ⟨by decide, rfl⟩

/-- C2 (amended): the scenario text matches the flat rent-keyword gate
(and in particular the "Renters Real Estate" phrases of the static
table); exactly one event is appended, with permalink
https://t.me/myhome/42; and the fanout attempts exactly the status-true,
non-expired, not-yet-notified users — regardless of their subscribed
services — each at most once. -/
theorem C2_amended (now : Nat) (sendOk : Nat → Bool) (db : DB)
    (hnd : (db.users.map (fun u => u.user_id)).Nodup) :
    textMatches (pyStr "Apartment for rent near the park") = true ∧
    (service_keywords.any (fun q => q.1 == "Renters Real Estate" &&
      q.2.any (fun kw =>
        pyIn (pyStr kw) (pyLower (pyStr "Apartment for rent near the park"))))) =
      true ∧
    (collect_data now sendOk true scenario_msg db).db.events =
      db.events ++ [scenario_event] ∧
    (∀ a : SendAttempt,
      a ∈ (collect_data now sendOk true scenario_msg db).attempts ↔
        ∃ u, u ∈ db.users ∧ a.user_id = u.user_id ∧
          a.success = sendOk u.user_id ∧ u.status = true ∧
          isExpired now u.trial_end_date = false ∧
          hasNotif db.notifications u.user_id 42 = false) ∧
    (∀ uid : Nat,
      ((collect_data now sendOk true scenario_msg db).attempts.countP
        (fun a => a.user_id == uid)) ≤ 1) := by
  have hcd : collect_data now sendOk true scenario_msg db =
      ⟨(notify_users now sendOk 42
          ⟨db.users, db.events ++ [scenario_event], db.notifications⟩).1,
        (notify_users now sendOk 42
          ⟨db.users, db.events ++ [scenario_event], db.notifications⟩).2⟩ := rfl
  have hndf : ((db.users.filter (fun v => v.status)).map
      (fun v => v.user_id)).Nodup :=
    List.Nodup.sublist (List.Sublist.map _ (List.filter_sublist _)) hnd
  refine ⟨by decide, by decide, ?_, ?_, ?_⟩
  · rw [hcd]
    exact notifyFold_events now sendOk 42 _
      ⟨db.users, db.events ++ [scenario_event], db.notifications⟩
  · intro a
    rw [hcd]
    show a ∈ (notify_users now sendOk 42
        ⟨db.users, db.events ++ [scenario_event], db.notifications⟩).2 ↔ _
    rw [notify_users_eq]
    rw [notifyFold_char now sendOk 42 _
      ⟨db.users, db.events ++ [scenario_event], db.notifications⟩ hndf a]
    constructor
    · rintro ⟨u, hu, h1, h2, h3, h4⟩
      rw [List.mem_filter] at hu
      exact ⟨u, hu.1, h1, h2, hu.2, h3, h4⟩
    · rintro ⟨u, hu, h1, h2, hst, h3, h4⟩
      exact ⟨u, List.mem_filter.mpr ⟨hu, hst⟩, h1, h2, h3, h4⟩
  · intro uid
    rw [hcd]
    show ((notify_users now sendOk 42
        ⟨db.users, db.events ++ [scenario_event], db.notifications⟩).2.countP
      (fun a => a.user_id == uid)) ≤ 1
    rw [notify_users_eq]
    exact notifyFold_count_le_one now sendOk 42 _
      ⟨db.users, db.events ++ [scenario_event], db.notifications⟩ uid hndf

/-- Witness for C2 with a one-user store. -/
theorem C2_witness :
    (((⟨[⟨5, none, none, none, true, none, []⟩], [], []⟩ : DB).users.map
      (fun u => u.user_id)).Nodup) ∧
    (collect_data 0 (fun _ => true) true scenario_msg
        ⟨[⟨5, none, none, none, true, none, []⟩], [], []⟩).db.events =
      [] ++ [scenario_event] ∧
    ((collect_data 0 (fun _ => true) true scenario_msg
        ⟨[⟨5, none, none, none, true, none, []⟩], [], []⟩).attempts.countP
      (fun a => a.user_id == 5)) ≤ 1 :=
  ⟨by decide,
   (C2_amended 0 (fun _ => true)
      ⟨[⟨5, none, none, none, true, none, []⟩], [], []⟩ (by decide)).2.2.1,
   (C2_amended 0 (fun _ => true)
      ⟨[⟨5, none, none, none, true, none, []⟩], [], []⟩ (by decide)).2.2.2.2 5⟩

end TelegramBot
